import Mathlib

/-!
Verification of the `BufferedFile` facade (`src/glommio/src/io/buffered_file.rs`).

The facade composes an external file handle (`GlommioFile`), an external
option resolver (`OpenOptions`) and an external asynchronous I/O engine
(the reactor, reached through a weak reference that is upgraded per call).
Pure data flow of each method is embedded below; the asynchronous engine
is represented by the result it reports for the submitted operation, and
external collaborators that are not part of the translated source are
modelled from the specification, each marked in its doc comment.
-/

set_option autoImplicit false

deriving instance DecidableEq for Except

/-- Value of `libc::O_CLOEXEC` on Linux. -/
def O_CLOEXEC : Nat := 0o2000000

/-- Value of `libc::O_ACCMODE` on Linux (mask of the access-mode bits). -/
def O_ACCMODE : Nat := 0o3

/-- Value of `libc::O_RDONLY` on Linux. -/
def O_RDONLY : Nat := 0

/-- Value of `libc::O_CREAT` on Linux. -/
def O_CREAT : Nat := 0o100

/-- The 32-bit pattern of `!libc::O_ACCMODE`: all bits set except the two
access-mode bits. -/
def NOT_O_ACCMODE : Nat := 2 ^ 32 - 1 - O_ACCMODE

/-- An underlying OS error reported by a failed syscall, identified by its
errno-style code. -/
structure IoErr where
  code : Nat
deriving DecidableEq

/-- `ENOENT`: no such file or directory. -/
def ENOENT : Nat := 2

/-- The error type returned by the facade. `enhanced` is the wrap produced by
`GlommioError::create_enhanced`: the underlying cause, a short operation
description, the current path if any and the current raw descriptor if any.
`engineUnavailable` is the distinct class the specification reserves for a
failed resolution of the I/O engine reference. -/
inductive GlommioError where
  | enhanced (source : IoErr) (opdesc : String) (path : Option String) (fd : Option Nat)
  | engineUnavailable
deriving DecidableEq

/-- `GlommioError::create_enhanced(source, opdesc, path, fd)`. -/
def GlommioError.create_enhanced (source : IoErr) (opdesc : String)
    (path : Option String) (fd : Option Nat) : GlommioError :=
  .enhanced source opdesc path fd

/-- The I/O engine (reactor), represented by the results it reports for the
operations submitted to it: `write_buffered fd buf pos` gives the byte count
collected by `collect_rw`, and `read_buffered fd pos size sched` gives the
buffer it filled together with the collected byte count. -/
structure Engine where
  write_buffered : Nat → List Nat → Nat → Except IoErr Nat
  read_buffered : Nat → Nat → Nat → Option Nat → Except IoErr (List Nat × Nat)

/-- Modelled from the spec: a `FileHandle` (`GlommioFile`) holds an owned raw
OS descriptor, an optional path, a lazily-resolved reference to the I/O
engine (absent once the engine has been torn down), an optional scheduling
hint, and the device/inode identity used by `is_same`. -/
structure GlommioFile where
  fd : Option Nat
  path : Option String
  reactor : Option Engine
  scheduler : Option Nat
  dev : Nat
  inode : Nat

/-- Modelled from the spec: the handle owns the raw descriptor while open. -/
def GlommioFile.as_raw_fd (g : GlommioFile) : Nat :=
  g.fd.getD 0

/-- Modelled from the spec: `GlommioFile::from_raw_fd` wraps an existing raw
descriptor; a handle obtained this way has no associated path. -/
def GlommioFile.from_raw_fd (fd : Nat) : GlommioFile :=
  { fd := some fd, path := none, reactor := none, scheduler := none, dev := 0, inode := 0 }

/-- Modelled from the spec: `GlommioFile::discard` consumes the handle and
returns the raw descriptor and the path without releasing the descriptor. -/
def GlommioFile.discard (g : GlommioFile) : Option Nat × Option String :=
  (g.fd, g.path)

/-- Modelled from the spec: `GlommioFile::is_same` compares the device and
inode identity of the two handles. -/
def GlommioFile.is_same (a b : GlommioFile) : Bool :=
  a.dev == b.dev && a.inode == b.inode

/-- Modelled from the spec: `GlommioFile::path` is the optional stored path. -/
def GlommioFile.file_path (g : GlommioFile) : Option String :=
  g.path

/-- `BufferedFile` owns one `GlommioFile`. -/
structure BufferedFile where
  file : GlommioFile

/-- `impl AsRawFd for BufferedFile` delegates to the inner handle. -/
def BufferedFile.as_raw_fd (f : BufferedFile) : Nat :=
  f.file.as_raw_fd

/-- `impl FromRawFd for BufferedFile` wraps `GlommioFile::from_raw_fd`. -/
def BufferedFile.from_raw_fd (fd : Nat) : BufferedFile :=
  { file := GlommioFile.from_raw_fd fd }

/-- `BufferedFile::is_same` delegates to the inner handle. -/
def BufferedFile.is_same (a b : BufferedFile) : Bool :=
  a.file.is_same b.file

/-- `BufferedFile::path` delegates to the inner handle. -/
def BufferedFile.path (f : BufferedFile) : Option String :=
  f.file.file_path

/-- `BufferedFile::discard` delegates to the inner handle. -/
def BufferedFile.discard (f : BufferedFile) : Option Nat × Option String :=
  f.file.discard

/-- The outcome a caller observes from an asynchronous operation: a successful
value, an error value returned through `Result`, or a panic (an unrecoverable
abort that never reaches the caller as a value). -/
inductive Outcome (α : Type) where
  | ok (v : α)
  | err (e : GlommioError)
  | panicked
deriving DecidableEq

/-- Modelled from the spec: `ReadResult` owns a contiguous byte window over a
materialized buffer; its length reflects only the bytes the engine filled. -/
structure ReadResult where
  buf : List Nat
  offset : Nat
  len : Nat
deriving DecidableEq

/-- `ReadResult::from_sliced_buffer(source, offset, len)`. -/
def ReadResult.from_sliced_buffer (source : List Nat) (offset len : Nat) : ReadResult :=
  { buf := source, offset := offset, len := len }

/-- The bytes visible through the window of a `ReadResult`. -/
def ReadResult.bytes (r : ReadResult) : List Nat :=
  (r.buf.drop r.offset).take r.len

/-- `BufferedFile::write_at(buf, pos)`: upgrade the weak engine reference
(`unwrap` panics when the engine is gone), submit the buffered write, and on
engine failure wrap the cause with "Writing", the current path and the
current descriptor. A successful collected count is returned as-is. -/
def BufferedFile.write_at (f : BufferedFile) (buf : List Nat) (pos : Nat) : Outcome Nat :=
  match f.file.reactor with
  | none => .panicked
  | some reactor =>
    match reactor.write_buffered f.as_raw_fd buf pos with
    | .ok n => .ok n
    | .error source => .err (GlommioError.create_enhanced source "Writing" f.file.path (some f.as_raw_fd))

/-- `BufferedFile::read_at(pos, size)`: upgrade the weak engine reference
(`unwrap` panics when the engine is gone), submit the buffered read, on
engine failure wrap the cause with "Reading", the current path and the
current descriptor, and on success return the window `[0, read_size)` over
the buffer the engine filled. -/
def BufferedFile.read_at (f : BufferedFile) (pos size : Nat) : Outcome ReadResult :=
  match f.file.reactor with
  | none => .panicked
  | some reactor =>
    match reactor.read_buffered f.as_raw_fd pos size f.file.scheduler with
    | .error source => .err (GlommioError.create_enhanced source "Reading" f.file.path (some f.as_raw_fd))
    | .ok (buffer, read_size) => .ok (ReadResult.from_sliced_buffer buffer 0 read_size)

/-- The bytes a caller observes from `read_at`: the window of the returned
`ReadResult`. -/
def BufferedFile.read_bytes_at (f : BufferedFile) (pos size : Nat) : Outcome (List Nat) :=
  match f.read_at pos size with
  | .ok r => .ok r.bytes
  | .err e => .err e
  | .panicked => .panicked

/-- The option set consumed by `open_with_options`: resolved access mode,
resolved creation mode (both fallible), custom flags and permission mode. -/
structure OpenOptions where
  access_mode : Except GlommioError Nat
  creation_mode : Except GlommioError Nat
  custom_flags : Nat
  mode : Nat

/-- `OpenOptions::get_access_mode`. -/
def OpenOptions.get_access_mode (o : OpenOptions) : Except GlommioError Nat :=
  o.access_mode

/-- `OpenOptions::get_creation_mode`. -/
def OpenOptions.get_creation_mode (o : OpenOptions) : Except GlommioError Nat :=
  o.creation_mode

/-- The flag computation of `BufferedFile::open_with_options` (lines 112-115):
`O_CLOEXEC | get_access_mode()? | get_creation_mode()?
 | (custom_flags as c_int & !O_ACCMODE)`. -/
def open_flags (opts : OpenOptions) : Except GlommioError Nat :=
  match opts.get_access_mode with
  | .error e => .error e
  | .ok am =>
    match opts.get_creation_mode with
    | .error e => .error e
    | .ok cm => .ok (O_CLOEXEC ||| am ||| cm ||| ((opts.custom_flags % 2 ^ 32) &&& NOT_O_ACCMODE))

/-- `BufferedFile::open_with_options(dir, path, opdesc, opts)`, parameterized
by the OS-level directory-relative open it delegates to: compute the flags,
delegate, and on failure wrap the cause with the operation description, the
path, and no descriptor. -/
def BufferedFile.open_with_options
    (open_at : Int → String → Nat → Nat → Except IoErr GlommioFile)
    (dir : Int) (path : String) (opdesc : String) (opts : OpenOptions) :
    Except GlommioError BufferedFile :=
  match open_flags opts with
  | .error e => .error e
  | .ok flags =>
    match open_at dir path flags opts.mode with
    | .error source => .error (GlommioError.create_enhanced source opdesc (some path) none)
    | .ok file => .ok { file := file }

/-- Modelled from the spec: the filesystem state visible to this facade, as
the set of paths that currently exist. -/
structure FsState where
  files : List String
deriving DecidableEq

/-- Modelled from the spec: `GlommioFile::open_at`, the OS directory-relative
open. An existing path opens successfully; a missing path is created only
when the creation bit is among the flags; otherwise the open fails with
`ENOENT` and the filesystem is unchanged (no file is created as a side
effect of a failed open). -/
def fs_open_at (fs : FsState) (dir : Int) (path : String) (flags mode : Nat) :
    Except IoErr GlommioFile × FsState :=
  if path ∈ fs.files then
    (.ok { fd := some 3, path := some path, reactor := none, scheduler := none,
           dev := 0, inode := 0 }, fs)
  else if flags &&& O_CREAT ≠ 0 then
    (.ok { fd := some 3, path := some path, reactor := none, scheduler := none,
           dev := 0, inode := 0 }, { files := path :: fs.files })
  else
    (.error { code := ENOENT }, fs)

/-- Modelled from the spec: the option set built by
`OpenOptions::new().read(true)`, as used by `BufferedFile::open` — access
mode read-only, no creation bits, no custom flags. -/
def read_only_options : OpenOptions :=
  { access_mode := .ok O_RDONLY, creation_mode := .ok 0, custom_flags := 0, mode := 0o644 }

/-- Modelled from the spec: `OpenOptions::buffered_open` delegates to
`BufferedFile::open_with_options` at the current directory with the
operation description "Opening", threading the filesystem effect of the OS
open. -/
def buffered_open (fs : FsState) (path : String) (opts : OpenOptions) :
    Except GlommioError BufferedFile × FsState :=
  (BufferedFile.open_with_options (fun d p fl m => (fs_open_at fs d p fl m).1)
     (-1) path "Opening" opts,
   match open_flags opts with
   | .error _ => fs
   | .ok flags => (fs_open_at fs (-1) path flags opts.mode).2)

/-- `BufferedFile::open(path)` (named `open_file` here because `open` is a
keyword): open with `OpenOptions::new().read(true)`. -/
def BufferedFile.open_file (fs : FsState) (path : String) :
    Except GlommioError BufferedFile × FsState :=
  buffered_open fs path read_only_options

/-- Modelled from the spec: `GlommioFile::rename` atomically renames the file
held at the stored path; on success the stored path becomes the new path and
the filesystem entry moves, on failure the handle and the filesystem are
unchanged. -/
def GlommioFile.rename (g : GlommioFile) (fs : FsState) (new_path : String) :
    Except GlommioError Unit × GlommioFile × FsState :=
  match g.path with
  | none => (.error (GlommioError.create_enhanced { code := ENOENT } "Renaming" none g.fd), g, fs)
  | some old =>
    if old ∈ fs.files then
      (.ok (), { g with path := some new_path },
       { files := new_path :: fs.files.erase old })
    else
      (.error (GlommioError.create_enhanced { code := ENOENT } "Renaming" (some old) g.fd), g, fs)

/-- `BufferedFile::rename(new_path)` delegates to the inner handle. -/
def BufferedFile.rename (f : BufferedFile) (fs : FsState) (new_path : String) :
    Except GlommioError Unit × BufferedFile × FsState :=
  match f.file.rename fs new_path with
  | (r, g, fs2) => (r, { file := g }, fs2)

/-- Modelled from the spec: the engine's buffered read against file contents.
It fills `min size (length - pos)` bytes starting at `pos` into a buffer of
`size` bytes and reports that count: zero bytes at or past end-of-file,
fewer than `size` at the end-of-file boundary, never more than `size`. -/
def model_read (contents : List Nat) (pos size : Nat) : List Nat × Nat :=
  let n := min size (contents.length - pos)
  ((contents.drop pos).take n ++ List.replicate (size - n) 0, n)

/-- Modelled from the spec: the engine's buffered write against file contents.
It overlays `buf` at `pos`, zero-filling any sparse gap beyond the previous
end-of-file, and reports `buf.length` bytes written. -/
def model_write (contents buf : List Nat) (pos : Nat) : List Nat × Nat :=
  ((contents.take pos ++ List.replicate (pos - contents.length) 0) ++ buf
     ++ contents.drop (pos + buf.length), buf.length)

/-- The engine whose reported results follow the spec's read/write semantics
over fixed file contents. -/
def engine_of (contents : List Nat) : Engine :=
  { write_buffered := fun _ buf pos => .ok (model_write contents buf pos).2,
    read_buffered := fun _ pos size _ => .ok (model_read contents pos size) }

/-- A `BufferedFile` over a raw descriptor, an optional path and an optional
resolved engine. -/
def mk_file (fd : Nat) (p : Option String) (eng : Option Engine) : BufferedFile :=
  { file := { fd := some fd, path := p, reactor := eng, scheduler := none, dev := 0, inode := 1 } }

/-- A file whose engine reference can no longer be resolved: the reactor has
been torn down. -/
def torn_down_file : BufferedFile :=
  mk_file 3 (some "t") none

/-- An engine that reports failure for every submitted operation. -/
def failing_engine : Engine :=
  { write_buffered := fun _ _ _ => .error { code := 28 },
    read_buffered := fun _ _ _ _ => .error { code := 5 } }

/-- An engine that reports a short write of 2 bytes for every submitted write. -/
def short_write_engine : Engine :=
  { write_buffered := fun _ _ _ => .ok 2,
    read_buffered := fun _ _ _ _ => .ok ([], 0) }

/-- C1 counterexample: with the engine torn down (the weak reactor reference
upgrades to nothing), `write_at` and `read_at` end in a panic — the `unwrap`
of the failed upgrade — and do not return the `EngineUnavailable` error
class to the caller. -/
theorem c1_unwrap_panics_not_engine_unavailable :
    torn_down_file.write_at [0] 0 = Outcome.panicked ∧
    torn_down_file.write_at [0] 0 ≠ Outcome.err GlommioError.engineUnavailable ∧
    torn_down_file.read_at 0 1 = Outcome.panicked ∧
    torn_down_file.read_at 0 1 ≠ Outcome.err GlommioError.engineUnavailable := by
  refine ⟨rfl, ?_, rfl, ?_⟩ <;> decide

/-- C1 (amended): when the engine reference can no longer be resolved,
`write_at` and `read_at` abort with an unrecoverable panic — the failure is
never silently ignored and never surfaced as a zero-length success, but it
reaches the caller as a panic, not as an `EngineUnavailable` error value. -/
theorem engine_teardown_panics (f : BufferedFile) (buf : List Nat) (pos size : Nat)
    (h : f.file.reactor = none) :
    f.write_at buf pos = Outcome.panicked ∧
    f.read_at pos size = Outcome.panicked ∧
    f.write_at buf pos ≠ Outcome.ok 0 ∧
    f.read_at pos size ≠ Outcome.err GlommioError.engineUnavailable := by
  simp [BufferedFile.write_at, BufferedFile.read_at, h]

/-- Witness for `engine_teardown_panics` at a torn-down file. -/
theorem engine_teardown_panics_witness :
    torn_down_file.write_at [1, 2] 0 = Outcome.panicked ∧
    torn_down_file.read_at 0 2 = Outcome.panicked ∧
    torn_down_file.write_at [1, 2] 0 ≠ Outcome.ok 0 ∧
    torn_down_file.read_at 0 2 ≠ Outcome.err GlommioError.engineUnavailable :=
  engine_teardown_panics torn_down_file [1, 2] 0 2 rfl

/-- C4: when the engine reports a successful write of `n` bytes, `write_at`
returns `n` as a success — also when `n` is smaller than the buffer length —
and `write_at` returns an error only when the engine reports failure. -/
theorem partial_write_is_success (f : BufferedFile) (eng : Engine)
    (buf : List Nat) (pos n : Nat) (h : f.file.reactor = some eng) :
    (eng.write_buffered f.as_raw_fd buf pos = .ok n → f.write_at buf pos = Outcome.ok n) ∧
    (∀ e, f.write_at buf pos = Outcome.err e →
      ∃ s, eng.write_buffered f.as_raw_fd buf pos = .error s) := by
  cases hw : eng.write_buffered f.as_raw_fd buf pos <;>
    simp [BufferedFile.write_at, h, hw]

/-- Witness for `partial_write_is_success`: a 4-byte buffer whose write the
engine completes with only 2 bytes written yields the success value 2. -/
theorem partial_write_is_success_witness :
    2 < [0, 1, 2, 3].length ∧
    (mk_file 5 none (some short_write_engine)).write_at [0, 1, 2, 3] 0 = Outcome.ok 2 :=
  ⟨by decide,
   (partial_write_is_success (mk_file 5 none (some short_write_engine))
     short_write_engine [0, 1, 2, 3] 0 2 rfl).1 rfl⟩

/-- C8: `is_same` is true exactly when the two files' (device, inode) pairs
are equal, and its value does not depend on the raw descriptors. -/
theorem is_same_iff_dev_inode (a b : BufferedFile) :
    (a.is_same b = true ↔ (a.file.dev, a.file.inode) = (b.file.dev, b.file.inode)) ∧
    (∀ fd1 fd2 : Option Nat,
      BufferedFile.is_same { file := { a.file with fd := fd1 } }
          { file := { b.file with fd := fd2 } } = a.is_same b) := by
  constructor
  · simp [BufferedFile.is_same, GlommioFile.is_same, Prod.ext_iff]
  · intro fd1 fd2
    rfl

/-- Witness for `is_same_iff_dev_inode`: two files with equal (device, inode)
but different descriptors are the same file. -/
theorem is_same_iff_dev_inode_witness :
    BufferedFile.is_same
        { file := { fd := some 3, path := some "a", reactor := none, scheduler := none,
                    dev := 7, inode := 42 } }
        { file := { fd := some 9, path := some "b", reactor := none, scheduler := none,
                    dev := 7, inode := 42 } } = true :=
  (is_same_iff_dev_inode
      { file := { fd := some 3, path := some "a", reactor := none, scheduler := none,
                  dev := 7, inode := 42 } }
      { file := { fd := some 9, path := some "b", reactor := none, scheduler := none,
                  dev := 7, inode := 42 } }).1.mpr rfl

/-- C10: `discard` returns the optional raw descriptor and the optional path;
for a file constructed from a raw descriptor, `path` is `none` and `discard`
returns the descriptor and no path. -/
theorem discard_of_from_raw_fd (fd : Nat) :
    (BufferedFile.from_raw_fd fd).path = none ∧
    (BufferedFile.from_raw_fd fd).discard = (some fd, none) :=
  ⟨rfl, rfl⟩

/-- The flag formula as the specification words it: close-on-exec OR the
access mode OR the creation mode OR the custom flags with the access-mode
bits masked out. -/
def spec_open_flags (access_mode creation_mode custom_flags : Nat) : Nat :=
  O_CLOEXEC ||| access_mode ||| creation_mode ||| ((custom_flags % 2 ^ 32) &&& NOT_O_ACCMODE)

/-- C2: whenever the options resolve their access mode and creation mode,
`open_with_options` computes exactly the spec's flag formula and passes those
flags to the OS open, for every directory, path and operation description. -/
theorem open_with_options_flags (opts : OpenOptions) (am cm : Nat)
    (ha : opts.get_access_mode = .ok am) (hc : opts.get_creation_mode = .ok cm) :
    open_flags opts = .ok (spec_open_flags am cm opts.custom_flags) ∧
    ∀ (oa : Int → String → Nat → Nat → Except IoErr GlommioFile)
      (dir : Int) (path opdesc : String),
      BufferedFile.open_with_options oa dir path opdesc opts =
        match oa dir path (spec_open_flags am cm opts.custom_flags) opts.mode with
        | .ok file => .ok { file := file }
        | .error s => .error (GlommioError.create_enhanced s opdesc (some path) none) := by
  have hfl : open_flags opts = .ok (spec_open_flags am cm opts.custom_flags) := by
    simp [open_flags, ha, hc, spec_open_flags]
  refine ⟨hfl, fun oa dir path opdesc => ?_⟩
  cases hoa : oa dir path (spec_open_flags am cm opts.custom_flags) opts.mode <;>
    simp [BufferedFile.open_with_options, hfl, hoa]

/-- Witness for `open_with_options_flags` at a concrete option set. -/
theorem open_with_options_flags_witness :
    open_flags { access_mode := .ok 2, creation_mode := .ok 64,
                 custom_flags := 0o4000, mode := 0o644 } =
      .ok (spec_open_flags 2 64 0o4000) :=
  (open_with_options_flags
    { access_mode := .ok 2, creation_mode := .ok 64, custom_flags := 0o4000, mode := 0o644 }
    2 64 rfl rfl).1

/-- C3: every failing delegation wraps the underlying cause with a short
operation description, the current path if any, and the current descriptor
if any: a failed `open_with_options` attaches the operation description and
the path but no descriptor, a failed `write_at` attaches "Writing", the path
and the descriptor, and a failed `read_at` attaches "Reading", the path and
the descriptor — the original cause is preserved in all three. -/
theorem failing_delegation_enriched (opts : OpenOptions) (flags : Nat)
    (hfl : open_flags opts = .ok flags)
    (oa : Int → String → Nat → Nat → Except IoErr GlommioFile)
    (dir : Int) (path opdesc : String) (s : IoErr)
    (hoa : oa dir path flags opts.mode = .error s)
    (f : BufferedFile) (eng : Engine) (hr : f.file.reactor = some eng)
    (buf : List Nat) (pos size : Nat) (sw sr : IoErr)
    (hw : eng.write_buffered f.as_raw_fd buf pos = .error sw)
    (hre : eng.read_buffered f.as_raw_fd pos size f.file.scheduler = .error sr) :
    BufferedFile.open_with_options oa dir path opdesc opts =
      .error (GlommioError.create_enhanced s opdesc (some path) none) ∧
    f.write_at buf pos =
      Outcome.err (GlommioError.create_enhanced sw "Writing" f.file.path (some f.as_raw_fd)) ∧
    f.read_at pos size =
      Outcome.err (GlommioError.create_enhanced sr "Reading" f.file.path (some f.as_raw_fd)) := by
  refine ⟨?_, ?_, ?_⟩
  · simp [BufferedFile.open_with_options, hfl, hoa]
  · simp [BufferedFile.write_at, hr, hw]
  · simp [BufferedFile.read_at, hr, hre]

/-- Witness for `failing_delegation_enriched`: a concrete failing OS open and
a concrete engine that fails writes with errno 28 and reads with errno 5. -/
theorem failing_delegation_enriched_witness :
    BufferedFile.open_with_options (fun _ _ _ _ => .error { code := 13 })
        (-1) "data.txt" "Opening" read_only_options =
      .error (GlommioError.create_enhanced { code := 13 } "Opening" (some "data.txt") none) ∧
    (mk_file 4 (some "data.txt") (some failing_engine)).write_at [9] 7 =
      Outcome.err (GlommioError.create_enhanced { code := 28 } "Writing" (some "data.txt") (some 4)) ∧
    (mk_file 4 (some "data.txt") (some failing_engine)).read_at 7 1 =
      Outcome.err (GlommioError.create_enhanced { code := 5 } "Reading" (some "data.txt") (some 4)) :=
  failing_delegation_enriched read_only_options O_CLOEXEC (by decide)
    (fun _ _ _ _ => .error { code := 13 }) (-1) "data.txt" "Opening" { code := 13 } rfl
    (mk_file 4 (some "data.txt") (some failing_engine)) failing_engine rfl
    [9] 7 1 { code := 28 } { code := 5 } rfl rfl

/-- C5: over the spec's engine read semantics, a successful `read_at` returns
a window of exactly the bytes the engine filled: `min size (length - pos)`
bytes — never more than `size`, and zero at or past end-of-file. -/
theorem read_at_window_exact (contents : List Nat) (pos size fd : Nat) (p : Option String) :
    (mk_file fd p (some (engine_of contents))).read_bytes_at pos size
        = Outcome.ok ((contents.drop pos).take (min size (contents.length - pos))) ∧
    ((contents.drop pos).take (min size (contents.length - pos))).length
        = min size (contents.length - pos) ∧
    min size (contents.length - pos) ≤ size ∧
    (contents.length ≤ pos → min size (contents.length - pos) = 0) := by
  refine ⟨?_, ?_, Nat.min_le_left _ _, fun h => by omega⟩
  · simp [BufferedFile.read_bytes_at, BufferedFile.read_at, mk_file, engine_of, model_read,
      ReadResult.from_sliced_buffer, ReadResult.bytes, List.take_append_of_le_length,
      List.length_take, List.length_drop]
  · simp [List.length_take, List.length_drop]

/-- Witness for `read_at_window_exact`: reading 4 bytes at position 5 of a
3-byte file returns a zero-length window. -/
theorem read_at_window_exact_witness :
    (mk_file 0 none (some (engine_of [1, 2, 3]))).read_bytes_at 5 4 = Outcome.ok [] ∧
    min 4 ([1, 2, 3].length - 5) = 0 :=
  ⟨(read_at_window_exact [1, 2, 3] 5 4 0 none).1,
   (read_at_window_exact [1, 2, 3] 5 4 0 none).2.2.2 (by decide)⟩

/-- C9: over the spec's engine semantics, a successful `write_at(buf, 0)`
reports the full buffer written, and a subsequent `read_at(0, buf.length)`
on the updated contents returns exactly the bytes of `buf`. -/
theorem write_then_read_roundtrip (contents buf : List Nat) (fd : Nat) (p : Option String) :
    (mk_file fd p (some (engine_of contents))).write_at buf 0 = Outcome.ok buf.length ∧
    (mk_file fd p (some (engine_of (model_write contents buf 0).1))).read_bytes_at 0 buf.length
        = Outcome.ok buf := by
  constructor
  · rfl
  · have hc2 : (model_write contents buf 0).1 = buf ++ contents.drop buf.length := by
      simp [model_write]
    have hn : min buf.length ((buf ++ contents.drop buf.length).length - 0) = buf.length := by
      simp [List.length_append]
    simp [BufferedFile.read_bytes_at, BufferedFile.read_at, mk_file, engine_of, model_read,
      ReadResult.from_sliced_buffer, ReadResult.bytes, hc2, hn, List.take_left]

/-- C6: `open` uses read-only access with no creation bits (its computed
flags are exactly close-on-exec: access mode read-only, creation bits
absent), and on a nonexistent path it fails with the enhanced "Opening"
error while leaving the filesystem unchanged — no file is created by a
failed open. -/
theorem open_nonexistent_fails_creates_nothing (fs : FsState) (path : String)
    (h : path ∉ fs.files) :
    (BufferedFile.open_file fs path).1
        = .error (GlommioError.create_enhanced { code := ENOENT } "Opening" (some path) none) ∧
    (BufferedFile.open_file fs path).2 = fs ∧
    open_flags read_only_options = .ok O_CLOEXEC ∧
    O_CLOEXEC &&& O_ACCMODE = O_RDONLY ∧
    O_CLOEXEC &&& O_CREAT = 0 := by
  have hfl : open_flags read_only_options = .ok O_CLOEXEC := by decide
  have hcr : O_CLOEXEC &&& O_CREAT = 0 := by decide
  refine ⟨?_, ?_, hfl, by decide, hcr⟩
  · simp [BufferedFile.open_file, buffered_open, BufferedFile.open_with_options, hfl,
      fs_open_at, h, hcr]
  · simp [BufferedFile.open_file, buffered_open, hfl, fs_open_at, h, hcr]

/-- Witness for `open_nonexistent_fails_creates_nothing` on an empty
filesystem. -/
theorem open_nonexistent_fails_creates_nothing_witness :
    (BufferedFile.open_file { files := [] } "nofile").1
        = .error (GlommioError.create_enhanced { code := ENOENT } "Opening" (some "nofile") none) ∧
    (BufferedFile.open_file { files := [] } "nofile").2 = { files := [] } :=
  ⟨(open_nonexistent_fails_creates_nothing { files := [] } "nofile" (by simp)).1,
   (open_nonexistent_fails_creates_nothing { files := [] } "nofile" (by simp)).2.1⟩

/-- C7: on success, `rename` updates the held path to the new path and the
new path exists in the filesystem; on failure, the file (its held path
included) and the filesystem are unchanged. -/
theorem rename_success_updates_path (f : BufferedFile) (fs : FsState) (new_path : String) :
    ((f.rename fs new_path).1 = Except.ok () →
      ((f.rename fs new_path).2.1).path = some new_path ∧
      new_path ∈ ((f.rename fs new_path).2.2).files) ∧
    (∀ e, (f.rename fs new_path).1 = Except.error e →
      (f.rename fs new_path).2.1 = f ∧ (f.rename fs new_path).2.2 = fs) := by
  cases hp : f.file.path with
  | none =>
    simp [BufferedFile.rename, GlommioFile.rename, hp]
  | some old =>
    by_cases hm : old ∈ fs.files
    · simp [BufferedFile.rename, GlommioFile.rename, hp, hm, BufferedFile.path,
        GlommioFile.file_path]
    · simp [BufferedFile.rename, GlommioFile.rename, hp, hm]

/-- Witness for `rename_success_updates_path`: renaming an existing file "a"
to "b" updates the held path and moves the filesystem entry. -/
theorem rename_success_updates_path_witness :
    ((mk_file 6 (some "a") none).rename { files := ["a"] } "b").2.1.path = some "b" ∧
    "b" ∈ (((mk_file 6 (some "a") none).rename { files := ["a"] } "b").2.2).files :=
  (rename_success_updates_path (mk_file 6 (some "a") none) { files := ["a"] } "b").1 (by decide)
